import Mathlib

/-!
Verification of the revocation-information freshness / proof-of-existence
evaluation core of `pyhanko_certvalidator` (`revinfo_archival.py`).

Modelling conventions:
* `datetime` values are modelled as `Int` (a linear timeline); `timedelta`
  values are likewise `Int` durations.  Only ordering, subtraction, addition
  and absolute value of these quantities matter to the code.
* Python functions that can raise are modelled as returning
  `Except PyError _`; a `PyError` value corresponds to an uncaught Python
  exception of the indicated class.
* ASN.1 objects (`ocsp.OCSPResponse`, `crl.CertificateList`) are modelled
  as records holding exactly the fields the code reads.
-/

namespace Certvalidator

/-- Mirrors `RevinfoFreshnessPOEType` (enum): UNKNOWN / TIMESTAMPED /
FRESHLY_FETCHED. -/
inductive RevinfoFreshnessPOEType where
  | UNKNOWN
  | TIMESTAMPED
  | FRESHLY_FETCHED
deriving DecidableEq

/-- Mirrors the frozen dataclass `RevinfoFreshnessPOE`. -/
structure RevinfoFreshnessPOE where
  poe_type : RevinfoFreshnessPOEType
  archive_timestamp : Option Int
deriving DecidableEq

/-- Mirrors `RevinfoUsabilityRating` (enum): OK / STALE / TOO_NEW / UNCLEAR. -/
inductive RevinfoUsabilityRating where
  | OK
  | STALE
  | TOO_NEW
  | UNCLEAR
deriving DecidableEq

/-- Mirrors the `usable` property: `self == RevinfoUsabilityRating.OK`. -/
def RevinfoUsabilityRating.usable (r : RevinfoUsabilityRating) : Bool :=
  match r with
  | RevinfoUsabilityRating.OK => true
  | _ => false

/-- Modelled from the spec: `FreshnessReqType` lives in
`pyhanko_certvalidator.policy_decl`, which is not part of the provided
sources.  The spec lists exactly three values (`Default`,
`TimeAfterSignature`, `MaxDiffRevocationValidation`).  The extra constructor
`UNRECOGNIZED` stands for any Python attribute value distinct from all three
enum members (Python's dynamic typing permits such a value to reach the
dispatch in `_judge_revinfo`, where every `==` test then fails). -/
inductive FreshnessReqType where
  | TIME_AFTER_SIGNATURE
  | MAX_DIFF_REVOCATION_VALIDATION
  | DEFAULT
  | UNRECOGNIZED
deriving DecidableEq

/-- Modelled from the spec: `CertRevTrustPolicy` lives in
`pyhanko_certvalidator.policy_decl`, not in the provided sources.  The spec
describes it as `{ freshness_req_type, freshness: Optional<Duration>,
retroactive_revinfo: bool }`; those are exactly the attributes
`revinfo_archival.py` reads. -/
structure CertRevTrustPolicy where
  freshness_req_type : FreshnessReqType
  freshness : Option Int
  retroactive_revinfo : Bool
deriving DecidableEq

/-- Python exceptions that the modelled code can raise. -/
inductive PyError where
  | notImplementedError
  | typeError
deriving DecidableEq

/-- Mirrors `_freshness_delta(policy, this_update, next_update,
time_tolerance)`.  It is only ever called after the `this_update is None`
guard, so `this_update` is a plain `Int` here.

Python source:
```
freshness_delta = policy.freshness
if freshness_delta is None:
    if next_update is not None and next_update >= this_update:
        freshness_delta = next_update - this_update
if freshness_delta is not None:
    freshness_delta = abs(freshness_delta) + time_tolerance
return freshness_delta
```
-/
def _freshness_delta (policy : CertRevTrustPolicy) (this_update : Int)
    (next_update : Option Int) (time_tolerance : Int) : Option Int :=
  match policy.freshness with
  | some fd => some (|fd| + time_tolerance)
  | none =>
    match next_update with
    | some nu =>
      if nu ≥ this_update then some (|nu - this_update| + time_tolerance)
      else none
    | none => none

/-- Mirrors `_judge_revinfo(this_update, next_update, validation_time,
policy, time_tolerance, signature_poe_time=None)`.  The Python statement
`signature_poe_time = signature_poe_time or validation_time` is modelled by
`Option.getD` (a `datetime` is always truthy, so `or` only substitutes for
`None`).  The final `else: raise NotImplementedError` branch is the
`Except.error` case. -/
def _judge_revinfo (this_update next_update : Option Int)
    (validation_time : Int) (policy : CertRevTrustPolicy)
    (time_tolerance : Int) (signature_poe_time : Option Int) :
    Except PyError RevinfoUsabilityRating :=
  match this_update with
  | none => Except.ok RevinfoUsabilityRating.UNCLEAR
  | some tu =>
    match policy.freshness_req_type with
    | FreshnessReqType.TIME_AFTER_SIGNATURE =>
      match _freshness_delta policy tu next_update time_tolerance with
      | none => Except.ok RevinfoUsabilityRating.UNCLEAR
      | some fd =>
        let spt := signature_poe_time.getD validation_time
        if tu - spt < fd then Except.ok RevinfoUsabilityRating.STALE
        else Except.ok RevinfoUsabilityRating.OK
    | FreshnessReqType.MAX_DIFF_REVOCATION_VALIDATION =>
      match _freshness_delta policy tu next_update time_tolerance with
      | none => Except.ok RevinfoUsabilityRating.UNCLEAR
      | some fd =>
        let true_delta := validation_time - tu
        if |true_delta| > fd then
          Except.ok
            (if true_delta > 0 then RevinfoUsabilityRating.STALE
             else RevinfoUsabilityRating.TOO_NEW)
        else Except.ok RevinfoUsabilityRating.OK
    | FreshnessReqType.DEFAULT =>
      match next_update with
      | none => Except.ok RevinfoUsabilityRating.UNCLEAR
      | some nu =>
        if policy.retroactive_revinfo = false ∧
            validation_time < tu - time_tolerance then
          Except.ok RevinfoUsabilityRating.TOO_NEW
        else if validation_time > nu + time_tolerance then
          Except.ok RevinfoUsabilityRating.STALE
        else Except.ok RevinfoUsabilityRating.OK
    | FreshnessReqType.UNRECOGNIZED => Except.error PyError.notImplementedError

/-- Mirrors the fields of an `ocsp.SingleResponse` that the code reads:
`cert_response['this_update'].native` and
`cert_response['next_update'].native` (either may be `None`). -/
structure SingleResponse where
  this_update : Option Int
  next_update : Option Int
deriving DecidableEq

/-- Mirrors the part of an `ocsp.BasicOCSPResponse` the code reads:
`tbs_response_data['responses']`, a sequence of single responses. -/
structure BasicOCSPResponse where
  responses : List SingleResponse
deriving DecidableEq

/-- Mirrors the fields of an `ocsp.OCSPResponse` the code reads:
`response_status.native`, `response_bytes.response_type.native`, and the
parsed `response_bytes.response` (only dereferenced behind the two string
guards). -/
structure OCSPResponse where
  response_status : String
  response_type : String
  basic_response : BasicOCSPResponse
deriving DecidableEq

/-- Mirrors the frozen dataclass `OCSPWithPOE`. -/
structure OCSPWithPOE where
  poe : RevinfoFreshnessPOE
  ocsp_response_data : OCSPResponse
deriving DecidableEq

/-- Mirrors `OCSPWithPOE.retrieve_poe`. -/
def OCSPWithPOE.retrieve_poe (self : OCSPWithPOE) : RevinfoFreshnessPOE :=
  self.poe

/-- Mirrors `OCSPWithPOE.extract_basic_ocsp_response`: returns `None` when
the top-level response status is not 'successful' or the response-bytes
type is not 'basic_ocsp_response', else the parsed basic response. -/
def OCSPWithPOE.extract_basic_ocsp_response (self : OCSPWithPOE) :
    Option BasicOCSPResponse :=
  if self.ocsp_response_data.response_status ≠ "successful" then none
  else if self.ocsp_response_data.response_type ≠ "basic_ocsp_response" then
    none
  else some self.ocsp_response_data.basic_response

/-- Mirrors `OCSPWithPOE._extract_unique_response` as written:
```
basic_ocsp_response = self.extract_basic_ocsp_response()
if basic_ocsp_response:
    return None
tbs_response = basic_ocsp_response['tbs_response_data']
...
```
An `asn1crypto` `BasicOCSPResponse` object is always truthy and `None` is
falsy, so a *successful* extraction returns `None` immediately, and a
*failed* extraction (`basic_ocsp_response is None`) falls through and
subscripts `None`, raising `TypeError`.  The subsequent length-one check and
`return cert_response` are unreachable on every input. -/
def OCSPWithPOE._extract_unique_response (self : OCSPWithPOE) :
    Except PyError (Option SingleResponse) :=
  match self.extract_basic_ocsp_response with
  | some _ => Except.ok none
  | none => Except.error PyError.typeError

/-- Mirrors `OCSPWithPOE.usable_at`: extract the unique single response;
`None` degrades to `UNCLEAR`; otherwise judge its timestamps.  An exception
raised during extraction propagates. -/
def OCSPWithPOE.usable_at (self : OCSPWithPOE) (validation_time : Int)
    (policy : CertRevTrustPolicy) (time_tolerance : Int)
    (signature_poe_time : Option Int) :
    Except PyError RevinfoUsabilityRating :=
  match self._extract_unique_response with
  | Except.error e => Except.error e
  | Except.ok none => Except.ok RevinfoUsabilityRating.UNCLEAR
  | Except.ok (some cert_response) =>
    _judge_revinfo cert_response.this_update cert_response.next_update
      validation_time policy time_tolerance signature_poe_time

/-- Mirrors the fields of a `crl.TbsCertList` that the code reads:
`this_update.native` and `next_update.native` (`next_update` is optional in
a CRL; `this_update` is read through the same optional-aware judge). -/
structure TbsCertList where
  this_update : Option Int
  next_update : Option Int
deriving DecidableEq

/-- Mirrors the part of a `crl.CertificateList` the code reads. -/
structure CertificateList where
  tbs_cert_list : TbsCertList
deriving DecidableEq

/-- Mirrors the frozen dataclass `CRLWithPOE`. -/
structure CRLWithPOE where
  poe : RevinfoFreshnessPOE
  crl_data : CertificateList
deriving DecidableEq

/-- Mirrors `CRLWithPOE.retrieve_poe`. -/
def CRLWithPOE.retrieve_poe (self : CRLWithPOE) : RevinfoFreshnessPOE :=
  self.poe

/-- Mirrors `CRLWithPOE.usable_at`: read `this_update`/`next_update` from
the CRL body and delegate to `_judge_revinfo`. -/
def CRLWithPOE.usable_at (self : CRLWithPOE) (validation_time : Int)
    (policy : CertRevTrustPolicy) (time_tolerance : Int)
    (signature_poe_time : Option Int) :
    Except PyError RevinfoUsabilityRating :=
  _judge_revinfo self.crl_data.tbs_cert_list.this_update
    self.crl_data.tbs_cert_list.next_update
    validation_time policy time_tolerance signature_poe_time

/-- Decidable equality of modelled Python results, so that concrete runs of
the embedded code can be checked by `decide`. -/
instance {ε α : Type} [DecidableEq ε] [DecidableEq α] :
    DecidableEq (Except ε α) := fun a b =>
  match a, b with
  | Except.ok x, Except.ok y =>
    if h : x = y then Decidable.isTrue (by rw [h])
    else Decidable.isFalse (by intro hc; injection hc; exact h (by assumption))
  | Except.error x, Except.error y =>
    if h : x = y then Decidable.isTrue (by rw [h])
    else Decidable.isFalse (by intro hc; injection hc; exact h (by assumption))
  | Except.ok _, Except.error _ => Decidable.isFalse fun hc => Except.noConfusion hc
  | Except.error _, Except.ok _ => Decidable.isFalse fun hc => Except.noConfusion hc

/-- Spec §8 concrete scenario A: this_update = day 0, next_update = day 7,
validation at day 5, tolerance 0, Default non-retroactive policy, OK.
(One day = 86400 seconds.) -/
theorem spec_scenario_a :
    _judge_revinfo (some 0) (some (7 * 86400)) (5 * 86400)
      (CertRevTrustPolicy.mk FreshnessReqType.DEFAULT none false) 0 none =
      Except.ok RevinfoUsabilityRating.OK := by decide

/-- Spec §8 concrete scenario B: validation at day 9 is past next_update,
Stale. -/
theorem spec_scenario_b :
    _judge_revinfo (some 0) (some (7 * 86400)) (9 * 86400)
      (CertRevTrustPolicy.mk FreshnessReqType.DEFAULT none false) 0 none =
      Except.ok RevinfoUsabilityRating.STALE := by decide

/-- Spec §8 concrete scenario C: validation one day before this_update:
TooNew when non-retroactive, OK when retroactive. -/
theorem spec_scenario_c :
    _judge_revinfo (some 0) (some (7 * 86400)) (-86400)
      (CertRevTrustPolicy.mk FreshnessReqType.DEFAULT none false) 0 none =
      Except.ok RevinfoUsabilityRating.TOO_NEW ∧
    _judge_revinfo (some 0) (some (7 * 86400)) (-86400)
      (CertRevTrustPolicy.mk FreshnessReqType.DEFAULT none true) 0 none =
      Except.ok RevinfoUsabilityRating.OK := by decide

/-- Claim C6: whenever `this_update` is absent, `_judge_revinfo` returns
`UNCLEAR`, for every `next_update`, validation time, policy (any of the
four modelled `freshness_req_type` values), tolerance and signature POE
time. -/
theorem judge_unclear_when_this_update_absent
    (next_update : Option Int) (validation_time : Int)
    (policy : CertRevTrustPolicy) (time_tolerance : Int)
    (signature_poe_time : Option Int) :
    _judge_revinfo none next_update validation_time policy time_tolerance
      signature_poe_time = Except.ok RevinfoUsabilityRating.UNCLEAR := rfl

/-- Claim C1 (code bug evidence): on an OCSP wrapper whose response has
`response_status = 'malformed_request'`, the extraction check fails, and
`usable_at` raises `TypeError` (subscripting `None`) instead of returning
`UNCLEAR`: the guard `if basic_ocsp_response:` in
`_extract_unique_response` is inverted. -/
theorem ocsp_usable_at_raises_on_failed_extraction :
    OCSPWithPOE.usable_at
      (OCSPWithPOE.mk
        (RevinfoFreshnessPOE.mk RevinfoFreshnessPOEType.UNKNOWN none)
        (OCSPResponse.mk "malformed_request" "basic_ocsp_response"
          (BasicOCSPResponse.mk [])))
      0 (CertRevTrustPolicy.mk FreshnessReqType.DEFAULT none false) 0 none =
      Except.error PyError.typeError := by decide

/-- Claim C8: when the judge is reached with `this_update` present and a
policy value distinct from the three recognized `FreshnessReqType` members,
it raises `NotImplementedError` and never returns a usability rating. -/
theorem judge_unrecognized_policy_raises
    (policy : CertRevTrustPolicy)
    (hmode : policy.freshness_req_type = FreshnessReqType.UNRECOGNIZED)
    (this_update : Int) (next_update : Option Int)
    (validation_time time_tolerance : Int)
    (signature_poe_time : Option Int) :
    _judge_revinfo (some this_update) next_update validation_time policy
        time_tolerance signature_poe_time =
      Except.error PyError.notImplementedError ∧
    ∀ r : RevinfoUsabilityRating,
      _judge_revinfo (some this_update) next_update validation_time policy
          time_tolerance signature_poe_time ≠ Except.ok r := by
  unfold _judge_revinfo
  rw [hmode]
  exact ⟨rfl, fun r hc => Except.noConfusion hc⟩

/-- Witness for C8 at a concrete input. -/
theorem judge_unrecognized_policy_raises_witness :
    _judge_revinfo (some 0) none 0
        (CertRevTrustPolicy.mk FreshnessReqType.UNRECOGNIZED none false) 0
        none =
      Except.error PyError.notImplementedError :=
  (judge_unrecognized_policy_raises
    (CertRevTrustPolicy.mk FreshnessReqType.UNRECOGNIZED none false)
    rfl 0 none 0 0 none).1

/-- Helper: in TimeAfterSignature mode with a defined freshness window, the
judge compares `this_update` minus the anchor against the window. -/
theorem judge_tas_eval
    (policy : CertRevTrustPolicy)
    (hmode : policy.freshness_req_type = FreshnessReqType.TIME_AFTER_SIGNATURE)
    (tu validation_time time_tolerance : Int)
    (next_update signature_poe_time : Option Int) (w : Int)
    (hfd : _freshness_delta policy tu next_update time_tolerance = some w) :
    _judge_revinfo (some tu) next_update validation_time policy
        time_tolerance signature_poe_time =
      Except.ok
        (if tu - signature_poe_time.getD validation_time < w then
          RevinfoUsabilityRating.STALE
         else RevinfoUsabilityRating.OK) := by
  simp only [_judge_revinfo, hmode, hfd]
  split_ifs <;> rfl

/-- Helper: in TimeAfterSignature mode with an undefined freshness window,
the judge returns `UNCLEAR`. -/
theorem judge_tas_eval_none
    (policy : CertRevTrustPolicy)
    (hmode : policy.freshness_req_type = FreshnessReqType.TIME_AFTER_SIGNATURE)
    (tu validation_time time_tolerance : Int)
    (next_update signature_poe_time : Option Int)
    (hfd : _freshness_delta policy tu next_update time_tolerance = none) :
    _judge_revinfo (some tu) next_update validation_time policy
        time_tolerance signature_poe_time =
      Except.ok RevinfoUsabilityRating.UNCLEAR := by
  simp only [_judge_revinfo, hmode, hfd]

/-- Helper: in MaxDiffRevocationValidation mode with a defined freshness
window, the judge compares the absolute signed delta against the window. -/
theorem judge_maxdiff_eval
    (policy : CertRevTrustPolicy)
    (hmode : policy.freshness_req_type =
      FreshnessReqType.MAX_DIFF_REVOCATION_VALIDATION)
    (tu validation_time time_tolerance : Int)
    (next_update signature_poe_time : Option Int) (w : Int)
    (hfd : _freshness_delta policy tu next_update time_tolerance = some w) :
    _judge_revinfo (some tu) next_update validation_time policy
        time_tolerance signature_poe_time =
      Except.ok
        (if |validation_time - tu| > w then
          (if validation_time - tu > 0 then RevinfoUsabilityRating.STALE
           else RevinfoUsabilityRating.TOO_NEW)
         else RevinfoUsabilityRating.OK) := by
  simp only [_judge_revinfo, hmode, hfd]
  split_ifs <;> rfl

/-- Helper: in MaxDiffRevocationValidation mode with an undefined freshness
window, the judge returns `UNCLEAR`. -/
theorem judge_maxdiff_eval_none
    (policy : CertRevTrustPolicy)
    (hmode : policy.freshness_req_type =
      FreshnessReqType.MAX_DIFF_REVOCATION_VALIDATION)
    (tu validation_time time_tolerance : Int)
    (next_update signature_poe_time : Option Int)
    (hfd : _freshness_delta policy tu next_update time_tolerance = none) :
    _judge_revinfo (some tu) next_update validation_time policy
        time_tolerance signature_poe_time =
      Except.ok RevinfoUsabilityRating.UNCLEAR := by
  simp only [_judge_revinfo, hmode, hfd]

/-- Helper: in Default mode with `next_update` present, the judge is the
two-sided window test. -/
theorem judge_default_eval
    (policy : CertRevTrustPolicy)
    (hmode : policy.freshness_req_type = FreshnessReqType.DEFAULT)
    (tu nu validation_time time_tolerance : Int)
    (signature_poe_time : Option Int) :
    _judge_revinfo (some tu) (some nu) validation_time policy
        time_tolerance signature_poe_time =
      Except.ok
        (if policy.retroactive_revinfo = false ∧
            validation_time < tu - time_tolerance then
          RevinfoUsabilityRating.TOO_NEW
         else if validation_time > nu + time_tolerance then
          RevinfoUsabilityRating.STALE
         else RevinfoUsabilityRating.OK) := by
  simp only [_judge_revinfo, hmode]
  split_ifs <;> rfl

/-- Helper: raising the tolerance keeps the freshness window defined and
does not shrink it. -/
theorem _freshness_delta_mono
    (policy : CertRevTrustPolicy) (tu : Int) (nu : Option Int)
    (t1 t2 : Int) (h : t1 ≤ t2) (w1 : Int)
    (hw1 : _freshness_delta policy tu nu t1 = some w1) :
    ∃ w2, _freshness_delta policy tu nu t2 = some w2 ∧ w1 ≤ w2 := by
  unfold _freshness_delta at hw1 ⊢
  rcases hf : policy.freshness with _ | f
  · rw [hf] at hw1
    rcases nu with _ | n
    · simp at hw1
    · dsimp only at hw1 ⊢
      split_ifs at hw1 ⊢ with hc
      exact ⟨_, rfl, by rw [← Option.some.inj hw1]; exact add_le_add_left h _⟩
  · rw [hf] at hw1
    dsimp only at hw1 ⊢
    exact ⟨_, rfl, by rw [← Option.some.inj hw1]; exact add_le_add_left h _⟩

/-- Helper: characterization of an `OK` verdict in Default mode. -/
theorem judge_default_ok_iff
    (policy : CertRevTrustPolicy)
    (hmode : policy.freshness_req_type = FreshnessReqType.DEFAULT)
    (tu nu validation_time time_tolerance : Int)
    (signature_poe_time : Option Int) :
    _judge_revinfo (some tu) (some nu) validation_time policy
        time_tolerance signature_poe_time =
      Except.ok RevinfoUsabilityRating.OK ↔
      ¬(policy.retroactive_revinfo = false ∧
          validation_time < tu - time_tolerance) ∧
        validation_time ≤ nu + time_tolerance := by
  rw [judge_default_eval policy hmode tu nu validation_time time_tolerance
    signature_poe_time]
  split_ifs with h1 h2
  · simp [h1]
  · simp [h1, not_le.mpr h2]
  · simp [h1, not_lt.mp h2]

/-- Helper: characterization of an `OK` verdict in
MaxDiffRevocationValidation mode. -/
theorem judge_maxdiff_ok_iff
    (policy : CertRevTrustPolicy)
    (hmode : policy.freshness_req_type =
      FreshnessReqType.MAX_DIFF_REVOCATION_VALIDATION)
    (tu validation_time time_tolerance : Int)
    (next_update signature_poe_time : Option Int) :
    _judge_revinfo (some tu) next_update validation_time policy
        time_tolerance signature_poe_time =
      Except.ok RevinfoUsabilityRating.OK ↔
      ∃ w, _freshness_delta policy tu next_update time_tolerance = some w ∧
        |validation_time - tu| ≤ w := by
  rcases hfd : _freshness_delta policy tu next_update time_tolerance
    with _ | w
  · rw [judge_maxdiff_eval_none policy hmode tu validation_time
      time_tolerance next_update signature_poe_time hfd]
    simp
  · rw [judge_maxdiff_eval policy hmode tu validation_time time_tolerance
      next_update signature_poe_time w hfd]
    split_ifs with h1 h2
    · simp [not_le.mpr h1]
    · simp [not_le.mpr h1]
    · simp [not_lt.mp h1]

/-- Claim C2: in Default mode with `this_update` present: `UNCLEAR` when
`next_update` is absent; `TOO_NEW` when the policy is non-retroactive and
`validation_time < this_update - tolerance`; otherwise `STALE` when
`validation_time > next_update + tolerance`; `OK` in every other case — in
particular throughout the closed interval
`[this_update - tolerance, next_update + tolerance]`, and, with a
retroactive policy, whenever `validation_time ≤ next_update + tolerance`. -/
theorem judge_default_mode_characterization
    (policy : CertRevTrustPolicy)
    (hmode : policy.freshness_req_type = FreshnessReqType.DEFAULT)
    (tu nu validation_time time_tolerance : Int)
    (signature_poe_time : Option Int) :
    _judge_revinfo (some tu) none validation_time policy time_tolerance
        signature_poe_time = Except.ok RevinfoUsabilityRating.UNCLEAR ∧
    (policy.retroactive_revinfo = false →
      validation_time < tu - time_tolerance →
      _judge_revinfo (some tu) (some nu) validation_time policy
          time_tolerance signature_poe_time =
        Except.ok RevinfoUsabilityRating.TOO_NEW) ∧
    (¬(policy.retroactive_revinfo = false ∧
        validation_time < tu - time_tolerance) →
      validation_time > nu + time_tolerance →
      _judge_revinfo (some tu) (some nu) validation_time policy
          time_tolerance signature_poe_time =
        Except.ok RevinfoUsabilityRating.STALE) ∧
    (¬(policy.retroactive_revinfo = false ∧
        validation_time < tu - time_tolerance) →
      validation_time ≤ nu + time_tolerance →
      _judge_revinfo (some tu) (some nu) validation_time policy
          time_tolerance signature_poe_time =
        Except.ok RevinfoUsabilityRating.OK) ∧
    (tu - time_tolerance ≤ validation_time →
      validation_time ≤ nu + time_tolerance →
      _judge_revinfo (some tu) (some nu) validation_time policy
          time_tolerance signature_poe_time =
        Except.ok RevinfoUsabilityRating.OK) ∧
    (policy.retroactive_revinfo = true →
      validation_time ≤ nu + time_tolerance →
      _judge_revinfo (some tu) (some nu) validation_time policy
          time_tolerance signature_poe_time =
        Except.ok RevinfoUsabilityRating.OK) := by
  refine ⟨by simp [_judge_revinfo, hmode], ?_, ?_, ?_, ?_, ?_⟩
  · intro hr hlt
    simp [_judge_revinfo, hmode, hr, hlt]
  · intro hnc hgt
    simp [_judge_revinfo, hmode, hnc, hgt]
  · intro hnc hle
    simp [_judge_revinfo, hmode, hnc, not_lt.mpr hle]
  · intro h1 h2
    simp [_judge_revinfo, hmode, not_lt.mpr h1, not_lt.mpr h2]
  · intro hr h2
    simp [_judge_revinfo, hmode, hr, not_lt.mpr h2]

/-- Witness for C2: scenario inside the validity window yields `OK`. -/
theorem judge_default_mode_characterization_witness :
    _judge_revinfo (some 0) (some 7) 5
        (CertRevTrustPolicy.mk FreshnessReqType.DEFAULT none false) 1 none =
      Except.ok RevinfoUsabilityRating.OK :=
  (judge_default_mode_characterization
    (CertRevTrustPolicy.mk FreshnessReqType.DEFAULT none false)
    rfl 0 7 5 1 none).2.2.2.2.1 (by norm_num) (by norm_num)

/-- Claim C4: in TimeAfterSignature mode with `this_update` present: the
window is undefined exactly when `policy.freshness` is absent and
`next_update` is absent or earlier than `this_update`, and then the judge
returns `UNCLEAR`; otherwise, with the anchor equal to `signature_poe_time`
when supplied and `validation_time` otherwise, the judge returns `STALE`
when `this_update - anchor < window` and `OK` when
`this_update - anchor ≥ window` (so `this_update = anchor + window` gives
`OK` and any earlier `this_update` gives `STALE`). -/
theorem judge_tas_characterization
    (policy : CertRevTrustPolicy)
    (hmode : policy.freshness_req_type = FreshnessReqType.TIME_AFTER_SIGNATURE)
    (tu validation_time time_tolerance : Int)
    (next_update signature_poe_time : Option Int) :
    (_freshness_delta policy tu next_update time_tolerance = none ↔
      policy.freshness = none ∧
        (next_update = none ∨ ∃ n, next_update = some n ∧ n < tu)) ∧
    (_freshness_delta policy tu next_update time_tolerance = none →
      _judge_revinfo (some tu) next_update validation_time policy
          time_tolerance signature_poe_time =
        Except.ok RevinfoUsabilityRating.UNCLEAR) ∧
    (∀ w, _freshness_delta policy tu next_update time_tolerance = some w →
      tu - signature_poe_time.getD validation_time < w →
      _judge_revinfo (some tu) next_update validation_time policy
          time_tolerance signature_poe_time =
        Except.ok RevinfoUsabilityRating.STALE) ∧
    (∀ w, _freshness_delta policy tu next_update time_tolerance = some w →
      w ≤ tu - signature_poe_time.getD validation_time →
      _judge_revinfo (some tu) next_update validation_time policy
          time_tolerance signature_poe_time =
        Except.ok RevinfoUsabilityRating.OK) := by
  refine ⟨?_, ?_, ?_, ?_⟩
  · unfold _freshness_delta
    rcases hf : policy.freshness with _ | f
    · rcases next_update with _ | n
      · simp
      · dsimp only
        rcases lt_or_le n tu with h | h
        · simp [if_neg (not_le.mpr h), h]
        · simp [if_pos h, not_lt.mpr h]
    · simp
  · intro hfd
    exact judge_tas_eval_none policy hmode tu validation_time time_tolerance
      next_update signature_poe_time hfd
  · intro w hw hlt
    rw [judge_tas_eval policy hmode tu validation_time time_tolerance
      next_update signature_poe_time w hw]
    rw [if_pos hlt]
  · intro w hw hge
    rw [judge_tas_eval policy hmode tu validation_time time_tolerance
      next_update signature_poe_time w hw]
    rw [if_neg (not_lt.mpr hge)]

/-- Witness for C4: `this_update` exactly `window` after the supplied
signature POE time yields `OK`. -/
theorem judge_tas_characterization_witness :
    _judge_revinfo (some 5) none 0
        (CertRevTrustPolicy.mk FreshnessReqType.TIME_AFTER_SIGNATURE (some 2)
          false) 0 (some 3) =
      Except.ok RevinfoUsabilityRating.OK :=
  (judge_tas_characterization
    (CertRevTrustPolicy.mk FreshnessReqType.TIME_AFTER_SIGNATURE (some 2)
      false)
    rfl 5 0 0 none (some 3)).2.2.2 2 (by decide) (by decide)

/-- Claim C5: in MaxDiffRevocationValidation mode with `this_update`
present: the effective window is `policy.freshness` when set, else
`next_update - this_update` when `next_update` is present and not earlier
than `this_update`, else undefined (then `UNCLEAR`); the comparison window
adds the tolerance to the absolute window, and with
`delta = validation_time - this_update` the judge returns `STALE` when
`|delta| > window` and `delta > 0`, `TOO_NEW` when `|delta| > window` and
`delta ≤ 0`, and `OK` otherwise. -/
theorem judge_maxdiff_characterization
    (policy : CertRevTrustPolicy)
    (hmode : policy.freshness_req_type =
      FreshnessReqType.MAX_DIFF_REVOCATION_VALIDATION)
    (tu validation_time time_tolerance : Int)
    (next_update signature_poe_time : Option Int) :
    (∀ f, policy.freshness = some f →
      _freshness_delta policy tu next_update time_tolerance =
        some (|f| + time_tolerance)) ∧
    (policy.freshness = none → ∀ n, next_update = some n → tu ≤ n →
      _freshness_delta policy tu next_update time_tolerance =
        some (n - tu + time_tolerance)) ∧
    (policy.freshness = none →
      (next_update = none ∨ ∃ n, next_update = some n ∧ n < tu) →
      _freshness_delta policy tu next_update time_tolerance = none) ∧
    (_freshness_delta policy tu next_update time_tolerance = none →
      _judge_revinfo (some tu) next_update validation_time policy
          time_tolerance signature_poe_time =
        Except.ok RevinfoUsabilityRating.UNCLEAR) ∧
    (∀ w, _freshness_delta policy tu next_update time_tolerance = some w →
      _judge_revinfo (some tu) next_update validation_time policy
          time_tolerance signature_poe_time =
        Except.ok
          (if |validation_time - tu| > w then
            (if validation_time - tu > 0 then RevinfoUsabilityRating.STALE
             else RevinfoUsabilityRating.TOO_NEW)
           else RevinfoUsabilityRating.OK)) := by
  refine ⟨?_, ?_, ?_, ?_, ?_⟩
  · intro f hf
    simp [_freshness_delta, hf]
  · intro hf n hn h
    simp [_freshness_delta, hf, hn, if_pos h,
      abs_of_nonneg (sub_nonneg.mpr h)]
  · intro hf hcase
    rcases hcase with hn | ⟨n, hn, hlt⟩
    · simp [_freshness_delta, hf, hn]
    · simp [_freshness_delta, hf, hn, if_neg (not_le.mpr hlt)]
  · intro hfd
    exact judge_maxdiff_eval_none policy hmode tu validation_time
      time_tolerance next_update signature_poe_time hfd
  · intro w hw
    exact judge_maxdiff_eval policy hmode tu validation_time time_tolerance
      next_update signature_poe_time w hw

/-- Witness for C5: delta of 4 within a derived window of 10 yields `OK`. -/
theorem judge_maxdiff_characterization_witness :
    _judge_revinfo (some 0) (some 10) 4
        (CertRevTrustPolicy.mk
          FreshnessReqType.MAX_DIFF_REVOCATION_VALIDATION none false) 0
        none =
      Except.ok RevinfoUsabilityRating.OK :=
  ((judge_maxdiff_characterization
    (CertRevTrustPolicy.mk FreshnessReqType.MAX_DIFF_REVOCATION_VALIDATION
      none false)
    rfl 0 4 0 (some 10) none).2.2.2.2 10 (by decide)).trans (by decide)

/-- Claim C10: in TimeAfterSignature mode the judge never returns
`TOO_NEW`: every result is `UNCLEAR`, `STALE` or `OK` (and never an
exception). -/
theorem judge_tas_never_too_new
    (policy : CertRevTrustPolicy)
    (hmode : policy.freshness_req_type = FreshnessReqType.TIME_AFTER_SIGNATURE)
    (this_update next_update : Option Int)
    (validation_time time_tolerance : Int)
    (signature_poe_time : Option Int) :
    _judge_revinfo this_update next_update validation_time policy
        time_tolerance signature_poe_time =
      Except.ok RevinfoUsabilityRating.UNCLEAR ∨
    _judge_revinfo this_update next_update validation_time policy
        time_tolerance signature_poe_time =
      Except.ok RevinfoUsabilityRating.STALE ∨
    _judge_revinfo this_update next_update validation_time policy
        time_tolerance signature_poe_time =
      Except.ok RevinfoUsabilityRating.OK := by
  rcases this_update with _ | tu
  · exact Or.inl rfl
  · rcases hfd : _freshness_delta policy tu next_update time_tolerance
      with _ | fd
    · exact Or.inl (by simp [_judge_revinfo, hmode, hfd])
    · rcases lt_or_le (tu - signature_poe_time.getD validation_time) fd
        with hlt | hle
      · exact Or.inr (Or.inl (by simp [_judge_revinfo, hmode, hfd, hlt]))
      · exact Or.inr (Or.inr
          (by simp [_judge_revinfo, hmode, hfd, not_lt.mpr hle]))

/-- Witness for C10 at a concrete input. -/
theorem judge_tas_never_too_new_witness :
    _judge_revinfo (some 0) none 0
        (CertRevTrustPolicy.mk FreshnessReqType.TIME_AFTER_SIGNATURE
          (some 100) false) 0 none =
      Except.ok RevinfoUsabilityRating.UNCLEAR ∨
    _judge_revinfo (some 0) none 0
        (CertRevTrustPolicy.mk FreshnessReqType.TIME_AFTER_SIGNATURE
          (some 100) false) 0 none =
      Except.ok RevinfoUsabilityRating.STALE ∨
    _judge_revinfo (some 0) none 0
        (CertRevTrustPolicy.mk FreshnessReqType.TIME_AFTER_SIGNATURE
          (some 100) false) 0 none =
      Except.ok RevinfoUsabilityRating.OK :=
  judge_tas_never_too_new
    (CertRevTrustPolicy.mk FreshnessReqType.TIME_AFTER_SIGNATURE
      (some 100) false)
    rfl (some 0) none 0 0 none

/-- Claim C3 counterexample: in TimeAfterSignature mode the tolerance is
added to the *required* freshness window, so raising it from 0 to 1 (both
non-negative, 0 ≤ 1) turns an `OK` verdict into `STALE` on the same input,
refuting tolerance-monotonicity for that mode. -/
theorem tolerance_increase_turns_ok_into_stale_in_tas :
    (0 : Int) ≤ 0 ∧ (0 : Int) ≤ 1 ∧
    _judge_revinfo (some 0) none 0
        (CertRevTrustPolicy.mk FreshnessReqType.TIME_AFTER_SIGNATURE (some 0)
          false) 0 (some 0) =
      Except.ok RevinfoUsabilityRating.OK ∧
    _judge_revinfo (some 0) none 0
        (CertRevTrustPolicy.mk FreshnessReqType.TIME_AFTER_SIGNATURE (some 0)
          false) 1 (some 0) =
      Except.ok RevinfoUsabilityRating.STALE := by decide

/-- Claim C3 (amended): for every fixed input tuple and non-negative
tolerances `t1 ≤ t2`, an `OK` verdict at tolerance `t1` is still `OK` at
tolerance `t2` in the Default and MaxDiffRevocationValidation modes (in
TimeAfterSignature mode a larger tolerance can turn `OK` into `STALE`). -/
theorem tolerance_monotone_default_and_maxdiff
    (policy : CertRevTrustPolicy)
    (hmode : policy.freshness_req_type = FreshnessReqType.DEFAULT ∨
      policy.freshness_req_type =
        FreshnessReqType.MAX_DIFF_REVOCATION_VALIDATION)
    (this_update next_update : Option Int)
    (validation_time t1 t2 : Int) (signature_poe_time : Option Int)
    (ht1 : 0 ≤ t1) (ht12 : t1 ≤ t2)
    (hok : _judge_revinfo this_update next_update validation_time policy t1
        signature_poe_time = Except.ok RevinfoUsabilityRating.OK) :
    _judge_revinfo this_update next_update validation_time policy t2
      signature_poe_time = Except.ok RevinfoUsabilityRating.OK := by
  rcases this_update with _ | tu
  · simp [_judge_revinfo] at hok
  · rcases hmode with hm | hm
    · rcases next_update with _ | nu
      · simp [_judge_revinfo, hm] at hok
      · rw [judge_default_ok_iff policy hm tu nu validation_time t1
          signature_poe_time] at hok
        rw [judge_default_ok_iff policy hm tu nu validation_time t2
          signature_poe_time]
        obtain ⟨h1, h2⟩ := hok
        refine ⟨?_, by omega⟩
        rintro ⟨hr, hlt⟩
        exact h1 ⟨hr, by omega⟩
    · rw [judge_maxdiff_ok_iff policy hm tu validation_time t1 next_update
        signature_poe_time] at hok
      rw [judge_maxdiff_ok_iff policy hm tu validation_time t2 next_update
        signature_poe_time]
      obtain ⟨w1, hfd, hle⟩ := hok
      obtain ⟨w2, hfd2, hw⟩ :=
        _freshness_delta_mono policy tu next_update t1 t2 ht12 w1 hfd
      exact ⟨w2, hfd2, le_trans hle hw⟩

/-- Witness for (amended) C3: Default-mode `OK` at tolerance 0 stays `OK`
at tolerance 3. -/
theorem tolerance_monotone_default_and_maxdiff_witness :
    _judge_revinfo (some 0) (some 10) 5
        (CertRevTrustPolicy.mk FreshnessReqType.DEFAULT none false) 3 none =
      Except.ok RevinfoUsabilityRating.OK :=
  tolerance_monotone_default_and_maxdiff
    (CertRevTrustPolicy.mk FreshnessReqType.DEFAULT none false)
    (Or.inl rfl) (some 0) (some 10) 5 0 3 none (by norm_num) (by norm_num)
    (by decide)

/-- Claim C7 counterexample: with an undefined freshness window
(`policy.freshness` absent and `next_update` absent), both mirrored
evaluations return `UNCLEAR`, which is neither `OK` in both cases nor
`STALE`/`TOO_NEW`; the claimed two-way disjunction fails for `d = 1 > 0`. -/
theorem maxdiff_symmetry_disjunction_fails_when_window_undefined :
    (0 : Int) < 1 ∧
    ¬((_judge_revinfo (some 0) none (0 + 1)
          (CertRevTrustPolicy.mk
            FreshnessReqType.MAX_DIFF_REVOCATION_VALIDATION none false) 0
          none =
          Except.ok RevinfoUsabilityRating.OK ∧
        _judge_revinfo (some 0) none (0 - 1)
          (CertRevTrustPolicy.mk
            FreshnessReqType.MAX_DIFF_REVOCATION_VALIDATION none false) 0
          none =
          Except.ok RevinfoUsabilityRating.OK) ∨
      (_judge_revinfo (some 0) none (0 + 1)
          (CertRevTrustPolicy.mk
            FreshnessReqType.MAX_DIFF_REVOCATION_VALIDATION none false) 0
          none =
          Except.ok RevinfoUsabilityRating.STALE ∧
        _judge_revinfo (some 0) none (0 - 1)
          (CertRevTrustPolicy.mk
            FreshnessReqType.MAX_DIFF_REVOCATION_VALIDATION none false) 0
          none =
          Except.ok RevinfoUsabilityRating.TOO_NEW)) := by decide

/-- Claim C7 (amended): in MaxDiffRevocationValidation mode, for any
`d > 0`, evaluating at `this_update + d` and `this_update - d` yields
either `OK` in both cases, or `UNCLEAR` in both cases (undefined window),
or `STALE` in the first and `TOO_NEW` in the second; mirroring the
validation time about `this_update` never changes whether the result is
`OK`. -/
theorem judge_maxdiff_sign_symmetric
    (policy : CertRevTrustPolicy)
    (hmode : policy.freshness_req_type =
      FreshnessReqType.MAX_DIFF_REVOCATION_VALIDATION)
    (tu time_tolerance d : Int)
    (next_update signature_poe_time : Option Int) (hd : 0 < d) :
    ((_judge_revinfo (some tu) next_update (tu + d) policy time_tolerance
          signature_poe_time = Except.ok RevinfoUsabilityRating.OK ∧
        _judge_revinfo (some tu) next_update (tu - d) policy time_tolerance
          signature_poe_time = Except.ok RevinfoUsabilityRating.OK) ∨
      (_judge_revinfo (some tu) next_update (tu + d) policy time_tolerance
          signature_poe_time = Except.ok RevinfoUsabilityRating.UNCLEAR ∧
        _judge_revinfo (some tu) next_update (tu - d) policy time_tolerance
          signature_poe_time = Except.ok RevinfoUsabilityRating.UNCLEAR) ∨
      (_judge_revinfo (some tu) next_update (tu + d) policy time_tolerance
          signature_poe_time = Except.ok RevinfoUsabilityRating.STALE ∧
        _judge_revinfo (some tu) next_update (tu - d) policy time_tolerance
          signature_poe_time = Except.ok RevinfoUsabilityRating.TOO_NEW)) ∧
    (_judge_revinfo (some tu) next_update (tu + d) policy time_tolerance
        signature_poe_time = Except.ok RevinfoUsabilityRating.OK ↔
      _judge_revinfo (some tu) next_update (tu - d) policy time_tolerance
        signature_poe_time = Except.ok RevinfoUsabilityRating.OK) := by
  rcases hfd : _freshness_delta policy tu next_update time_tolerance
    with _ | w
  · have e1 := judge_maxdiff_eval_none policy hmode tu (tu + d)
      time_tolerance next_update signature_poe_time hfd
    have e2 := judge_maxdiff_eval_none policy hmode tu (tu - d)
      time_tolerance next_update signature_poe_time hfd
    exact ⟨Or.inr (Or.inl ⟨e1, e2⟩), by rw [e1, e2]⟩
  · have e1 := judge_maxdiff_eval policy hmode tu (tu + d) time_tolerance
      next_update signature_poe_time w hfd
    have e2 := judge_maxdiff_eval policy hmode tu (tu - d) time_tolerance
      next_update signature_poe_time w hfd
    rw [show tu + d - tu = d by ring, abs_of_pos hd, if_pos hd] at e1
    rw [show tu - d - tu = -d by ring, abs_neg, abs_of_pos hd,
      if_neg (by omega : ¬(-d > (0 : Int)))] at e2
    by_cases hw : d > w
    · refine ⟨Or.inr (Or.inr ⟨?_, ?_⟩), ?_⟩
      · rw [e1, if_pos hw]
      · rw [e2, if_pos hw]
      · rw [e1, e2]
        simp [hw]
    · refine ⟨Or.inl ⟨?_, ?_⟩, ?_⟩
      · rw [e1, if_neg hw]
      · rw [e2, if_neg hw]
      · rw [e1, e2]
        simp [hw]

/-- Witness for (amended) C7: explicit freshness window 5 and `d = 2` give
`OK` on both sides of `this_update`. -/
theorem judge_maxdiff_sign_symmetric_witness :
    _judge_revinfo (some 0) none (0 + 2)
        (CertRevTrustPolicy.mk
          FreshnessReqType.MAX_DIFF_REVOCATION_VALIDATION (some 5) false) 0
        none =
      Except.ok RevinfoUsabilityRating.OK ↔
    _judge_revinfo (some 0) none (0 - 2)
        (CertRevTrustPolicy.mk
          FreshnessReqType.MAX_DIFF_REVOCATION_VALIDATION (some 5) false) 0
        none =
      Except.ok RevinfoUsabilityRating.OK :=
  (judge_maxdiff_sign_symmetric
    (CertRevTrustPolicy.mk FreshnessReqType.MAX_DIFF_REVOCATION_VALIDATION
      (some 5) false)
    rfl 0 0 2 none none (by norm_num)).2

/-- Helper: with any of the three recognized policy modes the judge always
returns some rating and never raises. -/
theorem judge_ok_total
    (policy : CertRevTrustPolicy)
    (hmode : policy.freshness_req_type ≠ FreshnessReqType.UNRECOGNIZED)
    (this_update next_update : Option Int)
    (validation_time time_tolerance : Int)
    (signature_poe_time : Option Int) :
    ∃ r, _judge_revinfo this_update next_update validation_time policy
        time_tolerance signature_poe_time = Except.ok r := by
  rcases this_update with _ | tu
  · exact ⟨_, rfl⟩
  · rcases hm : policy.freshness_req_type
    case TIME_AFTER_SIGNATURE =>
      rcases hfd : _freshness_delta policy tu next_update time_tolerance
        with _ | w
      · exact ⟨_, judge_tas_eval_none policy hm tu validation_time
          time_tolerance next_update signature_poe_time hfd⟩
      · exact ⟨_, judge_tas_eval policy hm tu validation_time
          time_tolerance next_update signature_poe_time w hfd⟩
    case MAX_DIFF_REVOCATION_VALIDATION =>
      rcases hfd : _freshness_delta policy tu next_update time_tolerance
        with _ | w
      · exact ⟨_, judge_maxdiff_eval_none policy hm tu validation_time
          time_tolerance next_update signature_poe_time hfd⟩
      · exact ⟨_, judge_maxdiff_eval policy hm tu validation_time
          time_tolerance next_update signature_poe_time w hfd⟩
    case DEFAULT =>
      rcases next_update with _ | nu
      · exact ⟨RevinfoUsabilityRating.UNCLEAR, by simp [_judge_revinfo, hm]⟩
      · exact ⟨_, judge_default_eval policy hm tu nu validation_time
          time_tolerance signature_poe_time⟩
    case UNRECOGNIZED => exact absurd hm hmode

/-- Claim C9: the judge and `CRLWithPOE.usable_at` are deterministic (two
evaluations on identical arguments and immutable wrapper state agree), and
with a recognized policy mode each returns exactly one of the four ratings
`OK`, `STALE`, `TOO_NEW`, `UNCLEAR` (never an exception). -/
theorem judge_and_crl_usable_at_deterministic_total
    (policy : CertRevTrustPolicy)
    (hmode : policy.freshness_req_type ≠ FreshnessReqType.UNRECOGNIZED)
    (this_update next_update : Option Int)
    (validation_time time_tolerance : Int)
    (signature_poe_time : Option Int) (wrapper : CRLWithPOE) :
    (_judge_revinfo this_update next_update validation_time policy
        time_tolerance signature_poe_time =
      _judge_revinfo this_update next_update validation_time policy
        time_tolerance signature_poe_time) ∧
    (_judge_revinfo this_update next_update validation_time policy
        time_tolerance signature_poe_time =
        Except.ok RevinfoUsabilityRating.OK ∨
      _judge_revinfo this_update next_update validation_time policy
        time_tolerance signature_poe_time =
        Except.ok RevinfoUsabilityRating.STALE ∨
      _judge_revinfo this_update next_update validation_time policy
        time_tolerance signature_poe_time =
        Except.ok RevinfoUsabilityRating.TOO_NEW ∨
      _judge_revinfo this_update next_update validation_time policy
        time_tolerance signature_poe_time =
        Except.ok RevinfoUsabilityRating.UNCLEAR) ∧
    (wrapper.usable_at validation_time policy time_tolerance
        signature_poe_time =
      wrapper.usable_at validation_time policy time_tolerance
        signature_poe_time) ∧
    (wrapper.usable_at validation_time policy time_tolerance
        signature_poe_time = Except.ok RevinfoUsabilityRating.OK ∨
      wrapper.usable_at validation_time policy time_tolerance
        signature_poe_time = Except.ok RevinfoUsabilityRating.STALE ∨
      wrapper.usable_at validation_time policy time_tolerance
        signature_poe_time = Except.ok RevinfoUsabilityRating.TOO_NEW ∨
      wrapper.usable_at validation_time policy time_tolerance
        signature_poe_time = Except.ok RevinfoUsabilityRating.UNCLEAR) := by
  have hj := judge_ok_total policy hmode this_update next_update
    validation_time time_tolerance signature_poe_time
  have hc := judge_ok_total policy hmode
    wrapper.crl_data.tbs_cert_list.this_update
    wrapper.crl_data.tbs_cert_list.next_update
    validation_time time_tolerance signature_poe_time
  refine ⟨rfl, ?_, rfl, ?_⟩
  · obtain ⟨r, hr⟩ := hj
    rcases r with _ | _ | _ | _
    · exact Or.inl hr
    · exact Or.inr (Or.inl hr)
    · exact Or.inr (Or.inr (Or.inl hr))
    · exact Or.inr (Or.inr (Or.inr hr))
  · obtain ⟨r, hr⟩ := hc
    have hu : wrapper.usable_at validation_time policy time_tolerance
        signature_poe_time = Except.ok r := hr
    rcases r with _ | _ | _ | _
    · exact Or.inl hu
    · exact Or.inr (Or.inl hu)
    · exact Or.inr (Or.inr (Or.inl hu))
    · exact Or.inr (Or.inr (Or.inr hu))

/-- Witness for C9 at a concrete CRL wrapper and Default policy. -/
theorem judge_and_crl_usable_at_deterministic_total_witness :
    CRLWithPOE.usable_at
        (CRLWithPOE.mk
          (RevinfoFreshnessPOE.mk RevinfoFreshnessPOEType.FRESHLY_FETCHED
            none)
          (CertificateList.mk (TbsCertList.mk (some 0) (some 10))))
        5 (CertRevTrustPolicy.mk FreshnessReqType.DEFAULT none false) 0
        none = Except.ok RevinfoUsabilityRating.OK ∨
    CRLWithPOE.usable_at
        (CRLWithPOE.mk
          (RevinfoFreshnessPOE.mk RevinfoFreshnessPOEType.FRESHLY_FETCHED
            none)
          (CertificateList.mk (TbsCertList.mk (some 0) (some 10))))
        5 (CertRevTrustPolicy.mk FreshnessReqType.DEFAULT none false) 0
        none = Except.ok RevinfoUsabilityRating.STALE ∨
    CRLWithPOE.usable_at
        (CRLWithPOE.mk
          (RevinfoFreshnessPOE.mk RevinfoFreshnessPOEType.FRESHLY_FETCHED
            none)
          (CertificateList.mk (TbsCertList.mk (some 0) (some 10))))
        5 (CertRevTrustPolicy.mk FreshnessReqType.DEFAULT none false) 0
        none = Except.ok RevinfoUsabilityRating.TOO_NEW ∨
    CRLWithPOE.usable_at
        (CRLWithPOE.mk
          (RevinfoFreshnessPOE.mk RevinfoFreshnessPOEType.FRESHLY_FETCHED
            none)
          (CertificateList.mk (TbsCertList.mk (some 0) (some 10))))
        5 (CertRevTrustPolicy.mk FreshnessReqType.DEFAULT none false) 0
        none = Except.ok RevinfoUsabilityRating.UNCLEAR :=
  (judge_and_crl_usable_at_deterministic_total
    (CertRevTrustPolicy.mk FreshnessReqType.DEFAULT none false)
    (by decide) (some 0) (some 10) 5 0 none
    (CRLWithPOE.mk
      (RevinfoFreshnessPOE.mk RevinfoFreshnessPOEType.FRESHLY_FETCHED none)
      (CertificateList.mk (TbsCertList.mk (some 0) (some 10))))).2.2.2

end Certvalidator
